import Mathlib

/-!
Verification of the capacity-derivation and bounded-cache specification for
the chroma zero-cache-size reproduction scripts.

The capacity formula and the two fix strategies are embedded from the Python
sources (`src/fix_chromadb_segfault.py`, `src/test_hnsw_cache_bug.py`,
`src/chroma_zero_cache_fix.py`).  The BoundedCapacityCache component itself
is described only by the specification (the scripts exercise a third-party
library's cache through monkeypatching), so its operations are modelled from
the spec, as marked in their doc comments.
-/

namespace Chroma

/-- The fixed divisor used by the cache-size calculation in the scripts:
`max_file_handles // 5` (src/fix_chromadb_segfault.py line 34,
src/chroma_zero_cache_fix.py line 31, src/zero_cache_reproducer.py line 25). -/
def DIVISOR : Int := 5

/-- The raw cache size the library derives from the file-handle limit:
`max_file_handles // 5` (Python floor division, hence `Int.fdiv`).
From src/fix_chromadb_segfault.py line 34. -/
def calculated_hnsw_cache_size (max_file_handles : Int) : Int :=
  Int.fdiv max_file_handles DIVISOR

/-- The fixed capacity derivation: `max(1, max_file_handles // 5)`.
From src/fix_chromadb_segfault.py line 35 and
src/test_hnsw_cache_bug.py line 102.  The spec names this function
CapacityPolicy. -/
def CapacityPolicy (sample : Int) : Int :=
  max 1 (calculated_hnsw_cache_size sample)

/-- The conditional fix applied by `patched_init`
(src/fix_chromadb_segfault.py lines 63-67, src/chroma_zero_cache_fix.py
lines 75-79): replace the value by 1 only when it is 0. -/
def patched_init (hnsw_cache_size : Int) : Int :=
  if hnsw_cache_size = 0 then 1 else hnsw_cache_size

/-- The clamping fix applied by `patched_init_with_fix`
(src/test_hnsw_cache_bug.py line 102): `max(1, hnsw_cache_size)`. -/
def patched_init_with_fix (hnsw_cache_size : Int) : Int :=
  max 1 hnsw_cache_size

/-- Modelled from the spec: `FALLBACK_CAPACITY` (positive integer, default 1),
the conservative default capacity substituted on probe failure (spec sections 4.1,
6 and 7).  The constant is absent from src/, which only patches a third-party
library. -/
def FALLBACK_CAPACITY : Int := 1

/-- Modelled from the spec: the deterministic rule that maps `sample = 0`
directly to `FALLBACK_CAPACITY` (spec section 8: "`sample = 0` ⇒
`capacity = FALLBACK_CAPACITY` or `max(1, 0) = 1` per policy").  Absent from
src/; stated so the two admissible rules can be compared. -/
def capacityPolicyFallbackAtZero (sample : Int) : Int :=
  if sample = 0 then FALLBACK_CAPACITY else max 1 (calculated_hnsw_cache_size sample)

/-- Modelled from the spec: CapacityPolicy applied to the result of the
ResourceLimitProbe, whose `sample()` returns an integer or a failure
(spec sections 4.1 and 6); probe failure (`none`) substitutes
`FALLBACK_CAPACITY` instead of propagating. -/
def capacityFromProbe (probe : Option Int) : Int :=
  match probe with
  | none => FALLBACK_CAPACITY
  | some sample => CapacityPolicy sample

/-- Modelled from the spec: BoundedCapacityCache state (spec section 3):
a mapping from key to entry, an ordered recency structure (here: the entry
list kept most-recently-used first), the fixed Capacity, and — to observe
the ResourceReleaser collaborator — the log of handles passed to the release
callback, in order.  Absent from src/, which only monkeypatches a third-party
library's cache. -/
structure BoundedCapacityCache (K V : Type) where
  capacity : Nat
  entries : List (K × V)
  released : List V

/-- Look a key up in a most-recently-used-first association list. -/
def lookupKey {K V : Type} [DecidableEq K] (es : List (K × V)) (k : K) : Option V :=
  match es with
  | [] => none
  | (k2, v) :: rest => if k2 = k then some v else lookupKey rest k

/-- Remove every entry for a key from the association list. -/
def eraseKey {K V : Type} [DecidableEq K] (es : List (K × V)) (k : K) : List (K × V) :=
  match es with
  | [] => []
  | (k2, v) :: rest => if k2 = k then eraseKey rest k else (k2, v) :: eraseKey rest k

/-- Modelled from the spec: `get(key) -> handle or Miss` (spec section 4.2):
returns the cached handle if present and marks it most-recently-used;
returns Miss (`none`) if absent. -/
def BoundedCapacityCache.get {K V : Type} [DecidableEq K]
    (c : BoundedCapacityCache K V) (k : K) :
    Option V × BoundedCapacityCache K V :=
  match lookupKey c.entries k with
  | none => (none, c)
  | some v => (some v, { c with entries := (k, v) :: eraseKey c.entries k })

/-- Modelled from the spec: `put(key, handle)` (spec section 4.2): inserts or
replaces the entry for the key, marking it most-recently-used; if the cache is
at capacity and the key is new, the least-recently-used entry (the last in
recency order) is evicted first and its handle is released via the release
callback (recorded in `released`).  Capacity never changes. -/
def BoundedCapacityCache.put {K V : Type} [DecidableEq K]
    (c : BoundedCapacityCache K V) (k : K) (v : V) :
    BoundedCapacityCache K V :=
  let rest := eraseKey c.entries k
  { c with
    entries := (k, v) :: rest.take (c.capacity - 1)
    released := c.released ++ (rest.drop (c.capacity - 1)).map Prod.snd }

/-- Modelled from the spec: the result of an operation that releases a handle;
`releaseFailure` is reported when the ResourceReleaser fails (spec section 7). -/
inductive ReleaseResult where
  | ok
  | releaseFailure
deriving DecidableEq

/-- Modelled from the spec: `invalidate(key)` (spec sections 4.2 and 7):
removes the entry if present, releasing its handle; a release-callback
failure (`releaseOk` false on the handle) is reported as `releaseFailure`
but the entry is removed from the bookkeeping regardless; no-op if absent. -/
def BoundedCapacityCache.invalidate {K V : Type} [DecidableEq K]
    (c : BoundedCapacityCache K V) (releaseOk : V → Bool) (k : K) :
    ReleaseResult × BoundedCapacityCache K V :=
  match lookupKey c.entries k with
  | none => (.ok, c)
  | some v =>
    ((if releaseOk v then .ok else .releaseFailure),
     { c with entries := eraseKey c.entries k, released := c.released ++ [v] })

/-- Modelled from the spec: `clear()` / teardown (spec section 4.2): releases
every held resource handle and empties the cache; idempotent. -/
def BoundedCapacityCache.clear {K V : Type}
    (c : BoundedCapacityCache K V) : BoundedCapacityCache K V :=
  { c with entries := [], released := c.released ++ c.entries.map Prod.snd }

/-- Modelled from the spec: construction (spec sections 2 and 3): the cache is
created with the Capacity derived by CapacityPolicy from the resource-limit
sample, empty. -/
def mkCache (K V : Type) (sample : Int) : BoundedCapacityCache K V :=
  { capacity := (CapacityPolicy sample).toNat, entries := [], released := [] }

/-- Modelled from the spec: construction from the ResourceLimitProbe result
(spec sections 4.1 and 6): probe failure substitutes `FALLBACK_CAPACITY`; the
cache is always constructible (the function is total). -/
def mkCacheFromProbe (K V : Type) (probe : Option Int) : BoundedCapacityCache K V :=
  { capacity := (capacityFromProbe probe).toNat, entries := [], released := [] }

/-- Run a sequence of put operations left to right. -/
def runPuts {K V : Type} [DecidableEq K]
    (c : BoundedCapacityCache K V) (ops : List (K × V)) : BoundedCapacityCache K V :=
  match ops with
  | [] => c
  | (k, v) :: rest => runPuts (c.put k v) rest

/- Helper lemmas shared by the claim theorems. -/

theorem lookupKey_eraseKey_self {K V : Type} [DecidableEq K]
    (es : List (K × V)) (k : K) : lookupKey (eraseKey es k) k = none := by
  induction es with
  | nil => rfl
  | cons e rest ih =>
    obtain ⟨k2, v⟩ := e
    by_cases h : k2 = k
    · simpa [eraseKey, h] using ih
    · simp [eraseKey, lookupKey, h, ih]

theorem eraseKey_of_lookupKey_none {K V : Type} [DecidableEq K]
    (es : List (K × V)) (k : K) (h : lookupKey es k = none) : eraseKey es k = es := by
  induction es with
  | nil => rfl
  | cons e rest ih =>
    obtain ⟨k2, v⟩ := e
    by_cases hk : k2 = k
    · simp [lookupKey, hk] at h
    · simp [lookupKey, hk] at h
      simp [eraseKey, hk, ih h]

theorem put_capacity {K V : Type} [DecidableEq K]
    (c : BoundedCapacityCache K V) (k : K) (v : V) :
    (c.put k v).capacity = c.capacity := rfl

theorem put_entries_length_le {K V : Type} [DecidableEq K]
    (c : BoundedCapacityCache K V) (k : K) (v : V) (h : 1 ≤ c.capacity) :
    (c.put k v).entries.length ≤ c.capacity := by
  simp [BoundedCapacityCache.put, List.length_take]
  omega

theorem runPuts_capacity {K V : Type} [DecidableEq K]
    (c : BoundedCapacityCache K V) (ops : List (K × V)) :
    (runPuts c ops).capacity = c.capacity := by
  induction ops generalizing c with
  | nil => rfl
  | cons op rest ih =>
    obtain ⟨k, v⟩ := op
    exact ih (c.put k v)

theorem runPuts_length_le {K V : Type} [DecidableEq K]
    (c : BoundedCapacityCache K V) (ops : List (K × V))
    (h1 : 1 ≤ c.capacity) (h2 : c.entries.length ≤ c.capacity) :
    (runPuts c ops).entries.length ≤ c.capacity := by
  induction ops generalizing c with
  | nil => exact h2
  | cons op rest ih =>
    obtain ⟨k, v⟩ := op
    exact ih (c.put k v) h1 (put_entries_length_le c k v h1)

theorem one_le_CapacityPolicy (sample : Int) : 1 ≤ CapacityPolicy sample :=
  le_max_left 1 (calculated_hnsw_cache_size sample)

theorem mkCache_capacity_pos (K V : Type) (sample : Int) :
    1 ≤ (mkCache K V sample).capacity := by
  have h := one_le_CapacityPolicy sample
  simp [mkCache]
  omega

/- Claim theorems. -/

/-- C1: for every sample ≥ 0, the capacity computed by CapacityPolicy —
`max(1, floor(sample / DIVISOR))` — is at least 1 and is never zero, no
matter how small or degenerate the sample is (including sample = 0). -/
theorem capacity_policy_ge_one (sample : Int) (h : 0 ≤ sample) :
    1 ≤ CapacityPolicy sample ∧ CapacityPolicy sample ≠ 0 := by
  have h1 : 1 ≤ CapacityPolicy sample := one_le_CapacityPolicy sample
  exact ⟨h1, by omega⟩

/-- Witness for C1: evaluated at the degenerate sample 0. -/
theorem capacity_policy_ge_one_witness :
    0 ≤ (0 : Int) ∧ (1 ≤ CapacityPolicy 0 ∧ CapacityPolicy 0 ≠ 0) :=
  ⟨by decide, capacity_policy_ge_one 0 (by decide)⟩

/-- C2: for sample = 5 and DIVISOR = 5 the raw value `floor(5 / 5)` is 1, and
the derived capacity is exactly 1, not 0: the mocked file-handle limit of 5
used by the reproduction scripts does not produce a zero cache size. -/
theorem capacity_policy_sample_five :
    calculated_hnsw_cache_size 5 = 1 ∧ CapacityPolicy 5 = 1 ∧ CapacityPolicy 5 ≠ 0 := by
  decide

/-- C3: with the default FALLBACK_CAPACITY of 1, sample = 0 gives capacity 1
deterministically: the rule substituting FALLBACK_CAPACITY at 0 and the rule
computing `max(1, 0)` agree, both returning 1. -/
theorem fallback_rules_agree_at_zero :
    FALLBACK_CAPACITY = 1 ∧
      capacityPolicyFallbackAtZero 0 = FALLBACK_CAPACITY ∧
      CapacityPolicy 0 = 1 ∧
      capacityPolicyFallbackAtZero 0 = CapacityPolicy 0 := by
  decide

/-- C4: starting from any cache state satisfying the construction-time
invariants (capacity at least 1, entries within capacity), every sequence of
put operations keeps the number of entries at most the capacity — in
particular after each intermediate operation, since every prefix of the
sequence is itself such a sequence — and the capacity never changes. -/
theorem cache_length_le_capacity {K V : Type} [DecidableEq K]
    (c : BoundedCapacityCache K V) (ops : List (K × V))
    (h1 : 1 ≤ c.capacity) (h2 : c.entries.length ≤ c.capacity) :
    (runPuts c ops).entries.length ≤ (runPuts c ops).capacity ∧
      (runPuts c ops).capacity = c.capacity := by
  refine ⟨?_, runPuts_capacity c ops⟩
  rw [runPuts_capacity c ops]
  exact runPuts_length_le c ops h1 h2

/-- Witness for C4: a freshly constructed capacity-1 cache receiving two puts. -/
theorem cache_length_le_capacity_witness :
    (runPuts (mkCache String Nat 5) [("a", 1), ("b", 2)]).entries.length ≤
        (runPuts (mkCache String Nat 5) [("a", 1), ("b", 2)]).capacity ∧
      (runPuts (mkCache String Nat 5) [("a", 1), ("b", 2)]).capacity =
        (mkCache String Nat 5).capacity :=
  cache_length_le_capacity (mkCache String Nat 5) [("a", 1), ("b", 2)]
    (by decide) (by decide)

/-- C7: if the ResourceLimitProbe fails (`none`), the capacity derivation
substitutes FALLBACK_CAPACITY rather than propagating the failure; cache
construction is a total function, so it always succeeds on probe failure, and
every constructed cache — whatever the probe returned — has capacity at least
1, so the failure is never surfaced as a fatal error. -/
theorem probe_failure_fallback (K V : Type) :
    capacityFromProbe none = FALLBACK_CAPACITY ∧
      (mkCacheFromProbe K V none).capacity = FALLBACK_CAPACITY.toNat ∧
      ∀ probe : Option Int, 1 ≤ (mkCacheFromProbe K V probe).capacity := by
  refine ⟨rfl, rfl, ?_⟩
  intro probe
  have h1 : 1 ≤ capacityFromProbe probe := by
    cases probe with
    | none => decide
    | some s => exact one_le_CapacityPolicy s
  simp [mkCacheFromProbe]
  omega

/-- C9: clear is idempotent: from any cache state, clearing twice produces
exactly the same state as clearing once (so the second call is a no-op), the
resulting cache is empty, and the release log after the second call equals the
log after the first — no handle's release callback runs again. -/
theorem clear_idempotent {K V : Type} (c : BoundedCapacityCache K V) :
    c.clear.clear = c.clear ∧ c.clear.entries = [] ∧
      c.clear.clear.released = c.clear.released := by
  refine ⟨?_, rfl, ?_⟩ <;> simp [BoundedCapacityCache.clear]

/-- C10: the conditional fix (replace v by 1 only when v = 0) and the clamping
fix (replace v by max(1, v)) coincide on every non-negative integer v produced
as the original hnsw_cache_size. -/
theorem fixes_agree_on_nonneg (v : Int) (h : 0 ≤ v) :
    patched_init v = patched_init_with_fix v := by
  unfold patched_init patched_init_with_fix
  split <;> omega

/-- Witness for C10: the two fixes agree at the degenerate value 0. -/
theorem fixes_agree_on_nonneg_witness :
    0 ≤ (0 : Int) ∧ patched_init 0 = patched_init_with_fix 0 :=
  ⟨by decide, fixes_agree_on_nonneg 0 (by decide)⟩

/-- C8: for every key present in the cache and every release callback — in
particular one that fails, making invalidate report `releaseFailure` — after
`invalidate(key)` returns the entry is removed from the cache's bookkeeping
and a subsequent `get(key)` returns Miss. -/
theorem invalidate_removes_entry {K V : Type} [DecidableEq K]
    (c : BoundedCapacityCache K V) (releaseOk : V → Bool) (k : K)
    (h : (lookupKey c.entries k).isSome) :
    lookupKey ((c.invalidate releaseOk k).2).entries k = none ∧
      (((c.invalidate releaseOk k).2).get k).1 = none := by
  obtain ⟨v, hv⟩ := Option.isSome_iff_exists.mp h
  have hinv : (c.invalidate releaseOk k).2 =
      { c with entries := eraseKey c.entries k, released := c.released ++ [v] } := by
    simp [BoundedCapacityCache.invalidate, hv]
  rw [hinv]
  refine ⟨lookupKey_eraseKey_self c.entries k, ?_⟩
  simp [BoundedCapacityCache.get, lookupKey_eraseKey_self]

/-- Witness for C8: a present key invalidated under a callback that always
fails (so the reported result is `releaseFailure`) still leaves the entry
removed and `get` returning Miss. -/
theorem invalidate_removes_entry_witness :
    ((lookupKey ((mkCache String Nat 5).put "k1" 7).entries "k1").isSome ∧
        (((mkCache String Nat 5).put "k1" 7).invalidate (fun _ => false) "k1").1 =
          ReleaseResult.releaseFailure) ∧
      (lookupKey ((((mkCache String Nat 5).put "k1" 7).invalidate
            (fun _ => false) "k1").2).entries "k1" = none ∧
        (((((mkCache String Nat 5).put "k1" 7).invalidate
            (fun _ => false) "k1").2).get "k1").1 = none) :=
  ⟨⟨by decide, by decide⟩,
    invalidate_removes_entry ((mkCache String Nat 5).put "k1" 7)
      (fun _ => false) "k1" (by decide)⟩

/-- C5: the end-to-end scenario — a cache constructed with sample = 5 and
DIVISOR = 5 has capacity 1; after `put("k1", 1)` and `put("k2", 2)`,
`get("k1")` returns Miss, `get("k2")` returns handle 2, and the release
callback received exactly the one handle 1 — together with the general
capacity-1 facts: a put of a new key into a capacity-1 cache holding one
entry evicts (releases) that sole entry, while a repeated put or get of the
same single key never evicts anything. -/
theorem capacity_one_end_to_end {K V : Type} [DecidableEq K]
    (c : BoundedCapacityCache K V) (a b : K) (va vb v2 : V)
    (hcap : c.capacity = 1) (hent : c.entries = [(a, va)]) (hab : b ≠ a) :
    ((mkCache String Nat 5).capacity = 1 ∧
      ((((mkCache String Nat 5).put "k1" 1).put "k2" 2).get "k1").1 = none ∧
      ((((mkCache String Nat 5).put "k1" 1).put "k2" 2).get "k2").1 = some 2 ∧
      (((mkCache String Nat 5).put "k1" 1).put "k2" 2).released = [1]) ∧
    ((c.put b vb).entries = [(b, vb)] ∧
      (c.put b vb).released = c.released ++ [va] ∧
      (c.put a v2).entries = [(a, v2)] ∧
      (c.put a v2).released = c.released ∧
      ((c.get a).2).entries = [(a, va)] ∧
      ((c.get a).2).released = c.released) := by
  have hba : a ≠ b := Ne.symm hab
  refine ⟨⟨by decide, by decide, by decide, by decide⟩, ?_, ?_, ?_, ?_, ?_, ?_⟩
  · simp [BoundedCapacityCache.put, hent, hcap, eraseKey, hba]
  · simp [BoundedCapacityCache.put, hent, hcap, eraseKey, hba]
  · simp [BoundedCapacityCache.put, hent, hcap, eraseKey]
  · simp [BoundedCapacityCache.put, hent, hcap, eraseKey]
  · simp [BoundedCapacityCache.get, hent, lookupKey, eraseKey]
  · simp [BoundedCapacityCache.get, hent, lookupKey, eraseKey]

/-- Witness for C5: the general capacity-1 facts applied to the concrete
capacity-1 cache holding ("A", 10), with new key "B". -/
theorem capacity_one_end_to_end_witness :
    (((mkCache String Nat 5).put "A" 10).capacity = 1 ∧
      ((mkCache String Nat 5).put "A" 10).entries = [("A", 10)] ∧
      "B" ≠ "A") ∧
    (((mkCache String Nat 5).capacity = 1 ∧
      ((((mkCache String Nat 5).put "k1" 1).put "k2" 2).get "k1").1 = none ∧
      ((((mkCache String Nat 5).put "k1" 1).put "k2" 2).get "k2").1 = some 2 ∧
      (((mkCache String Nat 5).put "k1" 1).put "k2" 2).released = [1]) ∧
    ((((mkCache String Nat 5).put "A" 10).put "B" 20).entries = [("B", 20)] ∧
      (((mkCache String Nat 5).put "A" 10).put "B" 20).released =
        ((mkCache String Nat 5).put "A" 10).released ++ [10] ∧
      (((mkCache String Nat 5).put "A" 10).put "A" 11).entries = [("A", 11)] ∧
      (((mkCache String Nat 5).put "A" 10).put "A" 11).released =
        ((mkCache String Nat 5).put "A" 10).released ∧
      ((((mkCache String Nat 5).put "A" 10).get "A").2).entries = [("A", 10)] ∧
      ((((mkCache String Nat 5).put "A" 10).get "A").2).released =
        ((mkCache String Nat 5).put "A" 10).released)) :=
  ⟨⟨by decide, by decide, by decide⟩,
    capacity_one_end_to_end ((mkCache String Nat 5).put "A" 10)
      "A" "B" 10 20 11 (by decide) (by decide) (by decide)⟩

/-- C6 counterexample: in a capacity-1 cache, after put("A", 10), put("B", 20)
and an intervening get("B"), key A is already gone (its handle 10 was released
by the put of B) and the subsequent put("C", 30) evicts B — the release it
performs is of handle 20, not of A's handle 10 — so "put(C) evicts A" fails in
the capacity-1 scenario. -/
theorem lru_capacity_one_counterexample :
    (mkCache String Nat 5).capacity = 1 ∧
      ((((((mkCache String Nat 5).put "A" 10).put "B" 20).get "B").2)).released = [10] ∧
      ((((((mkCache String Nat 5).put "A" 10).put "B" 20).get "B").2)).entries = [("B", 20)] ∧
      lookupKey ((((((mkCache String Nat 5).put "A" 10).put "B" 20).get "B").2)).entries "A" = none ∧
      ((((((mkCache String Nat 5).put "A" 10).put "B" 20).get "B").2).put "C" 30).released = [10, 20] ∧
      ¬ ((((((mkCache String Nat 5).put "A" 10).put "B" 20).get "B").2).put "C" 30).released =
          ((((((mkCache String Nat 5).put "A" 10).put "B" 20).get "B").2)).released ++ [10] := by
  decide

/-- C6 (amended): eviction always removes the least-recently-touched key —
whenever a put of an absent key hits a full cache, the handle released is that
of the last entry in recency order and the remaining entries are kept — and,
in particular, after inserting keys A and B into a capacity-2 cache, a
subsequent put(C) evicts A if B was made the more recently used by an
intervening get(B). -/
theorem lru_evicts_least_recent {K V : Type} [DecidableEq K]
    (c : BoundedCapacityCache K V) (k : K) (v : V)
    (front : List (K × V)) (e : K × V)
    (hmiss : lookupKey c.entries k = none)
    (hsplit : c.entries = front ++ [e])
    (hfull : c.entries.length = c.capacity) :
    ((c.put k v).released = c.released ++ [e.2] ∧
      (c.put k v).entries = (k, v) :: front) ∧
    ((mkCache String Nat 10).capacity = 2 ∧
      ((((((mkCache String Nat 10).put "A" 10).put "B" 20).get "B").2).put "C" 30).released = [10] ∧
      lookupKey ((((((mkCache String Nat 10).put "A" 10).put "B" 20).get "B").2).put "C" 30).entries
          "A" = none ∧
      lookupKey ((((((mkCache String Nat 10).put "A" 10).put "B" 20).get "B").2).put "C" 30).entries
          "B" = some 20) := by
  have hrest : eraseKey c.entries k = front ++ [e] := by
    rw [eraseKey_of_lookupKey_none c.entries k hmiss, hsplit]
  have hlen : c.capacity - 1 = front.length := by
    rw [hsplit] at hfull
    simp at hfull
    omega
  refine ⟨⟨?_, ?_⟩, by decide, by decide, by decide, by decide⟩
  · show c.released ++ ((eraseKey c.entries k).drop (c.capacity - 1)).map Prod.snd =
      c.released ++ [e.2]
    rw [hrest, hlen, List.drop_left]
    rfl
  · show (k, v) :: (eraseKey c.entries k).take (c.capacity - 1) = (k, v) :: front
    rw [hrest, hlen, List.take_left]

/-- Witness for C6 (amended): applied to the concrete capacity-2 cache holding
[("B", 20), ("A", 10)] (B most recent) with the new key "C". -/
theorem lru_evicts_least_recent_witness :
    (lookupKey (((((mkCache String Nat 10).put "A" 10).put "B" 20).get "B").2).entries "C" = none ∧
      (((((mkCache String Nat 10).put "A" 10).put "B" 20).get "B").2).entries =
        [("B", 20)] ++ [("A", 10)] ∧
      (((((mkCache String Nat 10).put "A" 10).put "B" 20).get "B").2).entries.length =
        (((((mkCache String Nat 10).put "A" 10).put "B" 20).get "B").2).capacity) ∧
    (((((((mkCache String Nat 10).put "A" 10).put "B" 20).get "B").2).put "C" 30).released =
        (((((mkCache String Nat 10).put "A" 10).put "B" 20).get "B").2).released ++
          [("A", (10 : Nat)).2] ∧
      ((((((mkCache String Nat 10).put "A" 10).put "B" 20).get "B").2).put "C" 30).entries =
        ("C", 30) :: [("B", 20)]) ∧
    ((mkCache String Nat 10).capacity = 2 ∧
      ((((((mkCache String Nat 10).put "A" 10).put "B" 20).get "B").2).put "C" 30).released = [10] ∧
      lookupKey ((((((mkCache String Nat 10).put "A" 10).put "B" 20).get "B").2).put "C" 30).entries
          "A" = none ∧
      lookupKey ((((((mkCache String Nat 10).put "A" 10).put "B" 20).get "B").2).put "C" 30).entries
          "B" = some 20) :=
  ⟨⟨by decide, by decide, by decide⟩,
    lru_evicts_least_recent (((((mkCache String Nat 10).put "A" 10).put "B" 20).get "B").2)
      "C" 30 [("B", 20)] ("A", 10) (by decide) (by decide) (by decide)⟩

end Chroma
